import Mathlib

/-!
Shallow embedding of the DC-Mini-Project PBFT voting-ledger core:
`blockchain/block.py`, `blockchain/blockchain.py`, `bft/node.py`,
`but/node.py` (the second, list-based node module) and the relevant part
of `utils/cryptography.py`.

Conventions of the embedding:
* Python integers are `Nat` (all integers the core manipulates — indices,
  sender ids, counts — are non-negative in every run the source performs).
* The SHA-256 primitive `hashlib.sha256(...).hexdigest()` used by
  `hash_data` is an external library call; it is modelled as an arbitrary
  function parameter `hd : String → String`.  Every theorem below is
  proved for all `hd`, and concrete instances pick a concrete function.
* `FAULTY_NODES` comes from a `config` module that is not part of the
  source tree; per the spec it is the statically configured fault
  tolerance `f`, so the handlers take `f : Nat` as a parameter.
* Python dictionaries keyed by block hash that map to vote sets are
  modelled as total functions `String → Finset Nat` defaulting to `∅`:
  the source only ever observes them through the
  `if h not in d: d[h] = set()` / `d[h].add` / `len(d.get(h, set()))` /
  `d.pop(h, None)` idiom, for which absence and presence-with-empty-set
  are indistinguishable.
* Printing (`print(...)`) is ignored; it does not touch the state.
-/

/-- A vote record (`voting/vote.py`, class `Vote`): `voter_id`,
`candidate_id`, `timestamp`.  `to_dict` returns `self.__dict__`, i.e. the
same three fields, so transactions are modelled as the vote records
themselves. -/
structure Vote where
  voter_id : Nat
  candidate_id : Nat
  timestamp : Nat
deriving DecidableEq, Repr

/-- Canonical serialization of one vote record, modelling
`json.dumps(vote.__dict__, sort_keys=True)` (keys in sorted order:
candidate_id, timestamp, voter_id). -/
def serializeVote (v : Vote) : String :=
  "\x7b\"candidate_id\": " ++ toString v.candidate_id ++
  ", \"timestamp\": " ++ toString v.timestamp ++
  ", \"voter_id\": " ++ toString v.voter_id ++ "\x7d"

/-- Serialization of a transaction list, modelling the JSON list encoding. -/
def serializeVotes (txs : List Vote) : String :=
  "[" ++ String.intercalate ", " (txs.map serializeVote) ++ "]"

/-- Canonical serialization of the five block fields, modelling
`json.dumps(self.__dict__, sort_keys=True)` inside `Block.compute_hash`
(`blockchain/block.py` line 17).  At the moment `compute_hash` runs,
`self.__dict__` holds exactly `index`, `nonce`, `previous_hash`,
`timestamp`, `transactions` (the `hash` attribute is assigned only
afterwards), listed here in sorted key order. -/
def serializeBlockFields (index : Nat) (transactions : List Vote)
    (timestamp : Nat) (previous_hash : String) (nonce : Nat) : String :=
  "\x7b\"index\": " ++ toString index ++
  ", \"nonce\": " ++ toString nonce ++
  ", \"previous_hash\": \"" ++ previous_hash ++ "\"" ++
  ", \"timestamp\": " ++ toString timestamp ++
  ", \"transactions\": " ++ serializeVotes transactions ++ "\x7d"

/-- `Block.compute_hash` (`blockchain/block.py` lines 15–18): serialize the
block's fields and feed the string through `hash_data`
(`utils/cryptography.py` lines 9–13), whose SHA-256 primitive is the
parameter `hd`. -/
def computeHash (hd : String → String) (index : Nat)
    (transactions : List Vote) (timestamp : Nat) (previous_hash : String)
    (nonce : Nat) : String :=
  hd (serializeBlockFields index transactions timestamp previous_hash nonce)

/-- A `Block` object (`blockchain/block.py`, class `Block`): the five
constructor fields plus the derived `hash` assigned in `__init__`. -/
structure BlockRec where
  index : Nat
  transactions : List Vote
  timestamp : Nat
  previous_hash : String
  nonce : Nat
  hash : String
deriving DecidableEq, Repr

/-- `Block.__init__` (`blockchain/block.py` lines 7–13): store the five
fields and immediately compute and store the hash.  (The Python default
`nonce=0` is passed explicitly at each call site of this model.)
Name resolution of `json` inside `compute_hash` is modelled separately by
`blockNewChecked` below; this definition gives the value `compute_hash`
denotes once `json.dumps` is modelled by `serializeBlockFields`. -/
def blockNew (hd : String → String) (index : Nat) (transactions : List Vote)
    (timestamp : Nat) (previous_hash : String) (nonce : Nat) : BlockRec :=
  { index := index
    transactions := transactions
    timestamp := timestamp
    previous_hash := previous_hash
    nonce := nonce
    hash := computeHash hd index transactions timestamp previous_hash nonce }

/-- The decoded wire dictionary for a full block (`block_data` of a
PRE-PREPARE, produced in `voting/api.py` as `new_block.__dict__`): the same
six entries as a `Block`, but accessed by key, not by attribute.  For
PREPARE/COMMIT messages the source sends only a `hash` entry, but the
handlers read nothing but `['hash']` from those, so carrying the full
record is observationally faithful. -/
structure BlockDict where
  index : Nat
  transactions : List Vote
  timestamp : Nat
  previous_hash : String
  nonce : Nat
  hash : String
deriving DecidableEq, Repr

/-- An element of `Blockchain.chain`: the genesis entry is a `Block`
object, while `Node.handle_commit` appends the raw `block_data`
dictionary, so the list is heterogeneous. -/
inductive ChainEntry where
  | block (b : BlockRec)
  | dict (d : BlockDict)
deriving DecidableEq, Repr

/-- The `hash` value of a chain entry (attribute or key access). -/
def ChainEntry.hashOf : ChainEntry → String
  | .block b => b.hash
  | .dict d => d.hash

/-- The `index` value of a chain entry. -/
def ChainEntry.indexOf : ChainEntry → Nat
  | .block b => b.index
  | .dict d => d.index

/-- The `previous_hash` value of a chain entry. -/
def ChainEntry.prevHashOf : ChainEntry → String
  | .block b => b.previous_hash
  | .dict d => d.previous_hash

/-- `Blockchain.add_block` (`blockchain/blockchain.py` lines 21–25):
append the block to the end of the chain and return it.  The source
performs no validation of any kind (its own comment: "In a real
application, you would have proof-of-work or other validation here"). -/
def addBlock (chain : List ChainEntry) (b : ChainEntry) :
    List ChainEntry × ChainEntry :=
  (chain ++ [b], b)

/-- `Blockchain.__init__` / `create_genesis_block`
(`blockchain/blockchain.py` lines 7–14): the chain starts as the
one-element list holding `Block(0, [], time.time(), "0")`; the
construction time `time.time()` is the parameter `t0`. -/
def blockchainInit (hd : String → String) (t0 : Nat) : List ChainEntry :=
  [ChainEntry.block (blockNew hd 0 [] t0 "0" 0)]

/-- Statuses returned by the three `bft/node.py` handlers. -/
inductive Status where
  | PREPARE_BROADCASTED
  | WAITING_FOR_MORE_PREPARES
  | COMMIT_BROADCASTED
  | WAITING_FOR_MORE_COMMITS
  | BLOCK_ADDED
deriving DecidableEq, Repr

/-- A decoded wire message as consumed by the `bft/node.py` handlers:
`view`, `block_data`, `sender_id`.  (`view` is never read by a handler.) -/
structure Msg where
  view : Nat
  block_data : BlockDict
  sender_id : Nat
deriving DecidableEq, Repr

/-- The mutable state of a `bft/node.py` `Node`. -/
structure NodeState where
  node_id : Nat
  is_primary : Bool
  view : Nat
  prepare_messages : String → Finset Nat
  commit_messages : String → Finset Nat
  pending_block : Option BlockDict
  chain : List ChainEntry

/-- Point update of a hash-keyed vote map. -/
def updateMap (m : String → Finset Nat) (k : String) (v : Finset Nat) :
    String → Finset Nat :=
  fun k' => if k' = k then v else m k'

/-- `Node.__init__` (`bft/node.py` lines 12–23): fresh vote maps, no
pending block, a freshly constructed `Blockchain` (genesis time `t0`). -/
def initNode (hd : String → String) (t0 : Nat) (node_id : Nat)
    (is_primary : Bool) : NodeState :=
  { node_id := node_id
    is_primary := is_primary
    view := 0
    prepare_messages := fun _ => ∅
    commit_messages := fun _ => ∅
    pending_block := none
    chain := blockchainInit hd t0 }

/-- `Node.handle_pre_prepare` (`bft/node.py` lines 36–49): store
`message['block_data']` as the pending block and report
`PREPARE_BROADCASTED`.  No validation, no ledger access. -/
def handlePrePrepare (s : NodeState) (m : Msg) : NodeState × Status :=
  ({ s with pending_block := some m.block_data }, Status.PREPARE_BROADCASTED)

/-- The PREPARE vote set for the message's hash after the handler's
`add` (`self.prepare_messages[block_hash].add(sender_id)`). -/
def prepareVotersAfter (s : NodeState) (m : Msg) : Finset Nat :=
  insert m.sender_id (s.prepare_messages m.block_data.hash)

/-- `Node.handle_prepare` (`bft/node.py` lines 51–70): insert the sender
into the PREPARE set for the hash; if the set's size reaches
`2 * FAULTY_NODES` report `COMMIT_BROADCASTED`, otherwise
`WAITING_FOR_MORE_PREPARES`. -/
def handlePrepare (f : Nat) (s : NodeState) (m : Msg) : NodeState × Status :=
  ({ s with prepare_messages :=
       updateMap s.prepare_messages m.block_data.hash (prepareVotersAfter s m) },
   if 2 * f ≤ (prepareVotersAfter s m).card then Status.COMMIT_BROADCASTED
   else Status.WAITING_FOR_MORE_PREPARES)

/-- The COMMIT vote set for the message's hash after the handler's `add`. -/
def commitVotersAfter (s : NodeState) (m : Msg) : Finset Nat :=
  insert m.sender_id (s.commit_messages m.block_data.hash)

/-- `Node.handle_commit` (`bft/node.py` lines 72–97) together with
`Node._reset_state` (lines 99–106): insert the sender into the COMMIT set
for the hash; if the set's size reaches `2 * FAULTY_NODES + 1` and the
pending block is present with a matching hash, append the pending
dictionary to the chain, clear the pending slot, pop both vote sets for
that hash, and report `BLOCK_ADDED`; in every other case keep the updated
set and report `WAITING_FOR_MORE_COMMITS`.  (A stored pending dictionary
always has a `hash` entry — `handle_pre_prepare` reads `['hash']` before
storing it — so it is never the falsy empty dict.) -/
def handleCommit (f : Nat) (s : NodeState) (m : Msg) : NodeState × Status :=
  if 2 * f + 1 ≤ (commitVotersAfter s m).card then
    match s.pending_block with
    | some pb =>
      if pb.hash = m.block_data.hash then
        ({ s with chain := s.chain ++ [ChainEntry.dict pb]
                  pending_block := none
                  prepare_messages := updateMap s.prepare_messages m.block_data.hash ∅
                  commit_messages :=
                    updateMap (updateMap s.commit_messages m.block_data.hash
                      (commitVotersAfter s m)) m.block_data.hash ∅ },
         Status.BLOCK_ADDED)
      else
        ({ s with commit_messages :=
             updateMap s.commit_messages m.block_data.hash (commitVotersAfter s m) },
         Status.WAITING_FOR_MORE_COMMITS)
    | none =>
        ({ s with commit_messages :=
             updateMap s.commit_messages m.block_data.hash (commitVotersAfter s m) },
         Status.WAITING_FOR_MORE_COMMITS)
  else
    ({ s with commit_messages :=
         updateMap s.commit_messages m.block_data.hash (commitVotersAfter s m) },
     Status.WAITING_FOR_MORE_COMMITS)

/-- Python-level failures the model distinguishes. -/
inductive PyErr where
  | nameError (n : String)
  | attributeError (attr : String)
  | indexError
deriving DecidableEq, Repr

/-- `Node.create_block` (`bft/node.py` lines 25–34): read
`self.blockchain.last_block` (i.e. `chain[-1]`; `IndexError` on an empty
chain), then evaluate `last_block.index` and `last_block.hash` as
attribute accesses — a plain dictionary entry has neither attribute, so
that raises `AttributeError` — and construct the new `Block` from the
vote batch (`t` is `time.time()` at the call). -/
def createBlock (hd : String → String) (s : NodeState) (votes : List Vote)
    (t : Nat) : Except PyErr BlockRec :=
  match s.chain.getLast? with
  | none => .error .indexError
  | some (ChainEntry.block b) => .ok (blockNew hd (b.index + 1) votes t b.hash 0)
  | some (ChainEntry.dict _) => .error (.attributeError "index")

/-- The ledger states reachable by any sequence of the public operations:
construction (`initNode`) followed by arbitrary handler invocations.
(`create_block` reads the state but never mutates it, so it contributes no
transition.) -/
inductive Reachable (hd : String → String) (f : Nat) : NodeState → Prop where
  | init (t0 node_id : Nat) (is_primary : Bool) :
      Reachable hd f (initNode hd t0 node_id is_primary)
  | prePrepare {s : NodeState} (m : Msg) :
      Reachable hd f s → Reachable hd f (handlePrePrepare s m).1
  | prepare {s : NodeState} (m : Msg) :
      Reachable hd f s → Reachable hd f (handlePrepare f s m).1
  | commit {s : NodeState} (m : Msg) :
      Reachable hd f s → Reachable hd f (handleCommit f s m).1

/-- One linkage check between adjacent chain entries:
`cur.previous_hash = prev.hash` and `cur.index = prev.index + 1`. -/
def linkOk (prev cur : ChainEntry) : Bool :=
  cur.prevHashOf == prev.hashOf && cur.indexOf == prev.indexOf + 1

/-- The hash-chain invariant of the spec: every adjacent pair of chain
entries satisfies `linkOk`. -/
def chainOk : List ChainEntry → Bool
  | [] => true
  | [_] => true
  | a :: b :: rest => linkOk a b && chainOk (b :: rest)

/-- Side condition on a COMMIT step: whenever this step is about to append
(threshold reached and pending block matching), the appended dictionary
satisfies the linkage conditions with respect to the current chain tail.
The source performs no such check; this predicate captures the traces on
which the commits happen to be linkage-consistent. -/
def commitLinkOk (f : Nat) (s : NodeState) (m : Msg) : Prop :=
  ∀ pb, s.pending_block = some pb → pb.hash = m.block_data.hash →
    2 * f + 1 ≤ (commitVotersAfter s m).card →
    ∃ tail, s.chain.getLast? = some tail ∧
      pb.previous_hash = tail.hashOf ∧ pb.index = tail.indexOf + 1

/-- Reachability restricted to traces whose committing steps only ever
append linkage-consistent block dictionaries. -/
inductive ReachableLinked (hd : String → String) (f : Nat) : NodeState → Prop where
  | init (t0 node_id : Nat) (is_primary : Bool) :
      ReachableLinked hd f (initNode hd t0 node_id is_primary)
  | prePrepare {s : NodeState} (m : Msg) :
      ReachableLinked hd f s → ReachableLinked hd f (handlePrePrepare s m).1
  | prepare {s : NodeState} (m : Msg) :
      ReachableLinked hd f s → ReachableLinked hd f (handlePrepare f s m).1
  | commit {s : NodeState} (m : Msg) :
      ReachableLinked hd f s → commitLinkOk f s m →
      ReachableLinked hd f (handleCommit f s m).1

/-!  Name-resolution model of `blockchain/block.py`.  The module's global
scope binds exactly the names introduced by its two import statements and
its class statement; `json` is not among them and is not a Python builtin,
so the reference to `json` inside `compute_hash` (line 17) fails name
resolution at the first call, which happens inside `Block.__init__`. -/

/-- The names bound at module scope in `blockchain/block.py`:
`import time` binds `time`, `from utils.cryptography import hash_data`
binds `hash_data`, and the class statement binds `Block`.  (The local
names of `compute_hash` are `self` and `block_string`; `json` is neither
local, nor global, nor a builtin.) -/
def blockModuleScope : List String := ["time", "hash_data", "Block"]

/-- `Block.compute_hash` with Python name resolution made explicit: the
body evaluates `json.dumps(...)`, which requires the name `json` to be in
scope; otherwise the call raises `NameError`. -/
def computeHashChecked (hd : String → String) (index : Nat)
    (transactions : List Vote) (timestamp : Nat) (previous_hash : String)
    (nonce : Nat) : Except PyErr String :=
  if "json" ∈ blockModuleScope then
    .ok (computeHash hd index transactions timestamp previous_hash nonce)
  else .error (.nameError "json")

/-- `Block.__init__` with name resolution made explicit: the constructor
calls `compute_hash`, so the `NameError` propagates out of every `Block`
construction. -/
def blockNewChecked (hd : String → String) (index : Nat)
    (transactions : List Vote) (timestamp : Nat) (previous_hash : String)
    (nonce : Nat) : Except PyErr BlockRec :=
  (computeHashChecked hd index transactions timestamp previous_hash nonce).map
    fun h =>
      { index := index
        transactions := transactions
        timestamp := timestamp
        previous_hash := previous_hash
        nonce := nonce
        hash := h }

/-- `Blockchain.__init__` with name resolution made explicit: it builds
the genesis block `Block(0, [], time.time(), "0")`, so it fails whenever
that construction fails. -/
def blockchainInitChecked (hd : String → String) (t0 : Nat) :
    Except PyErr (List ChainEntry) :=
  (blockNewChecked hd 0 [] t0 "0" 0).map fun g => [ChainEntry.block g]

/-- `Node.__init__` (`bft/node.py` lines 12–23) with name resolution made
explicit: it constructs a `Blockchain`, so it fails whenever genesis
construction fails. -/
def nodeInitChecked (hd : String → String) (t0 : Nat) (node_id : Nat)
    (is_primary : Bool) : Except PyErr NodeState :=
  (blockchainInitChecked hd t0).map fun c =>
    { node_id := node_id
      is_primary := is_primary
      view := 0
      prepare_messages := fun _ => ∅
      commit_messages := fun _ => ∅
      pending_block := none
      chain := c }

/-!  The second node module, `but/node.py`: a differently-behaving copy of
the consensus handlers that stores PREPARE/COMMIT senders in Python
*lists* (`.append`) instead of sets, so duplicates accumulate. -/

/-- Statuses returned by the `but/node.py` handlers. -/
inductive ButStatus where
  | PREPARED
  | COMMITTED
  | WAITING_FOR_PREPARES
  | WAITING_FOR_COMMITS
  | BLOCK_ADDED
deriving DecidableEq, Repr

/-- A decoded wire message as consumed by the `but/node.py` prepare and
commit handlers: they read `message['block']['hash']` and
`message['sender_id']`. -/
structure ButMsg where
  view : Nat
  block_hash : String
  sender_id : Nat
deriving DecidableEq, Repr

/-- The state of a `but/node.py` `Node` touched by its prepare/commit
handlers: list-valued vote maps and the pending slot.  (Its
`handle_commit` never appends to the chain — the `add_block` call is
commented out — so the chain is not part of the transitions modelled
here.) -/
structure ButState where
  prepare_messages : String → List Nat
  commit_messages : String → List Nat
  pending_block : Option BlockDict

/-- Point update of a list-valued vote map. -/
def updateListMap (m : String → List Nat) (k : String) (v : List Nat) :
    String → List Nat :=
  fun k' => if k' = k then v else m k'

/-- The vote-map part of `but/node.py`'s `Node.__init__`: empty maps,
no pending block. -/
def butInit : ButState :=
  { prepare_messages := fun _ => []
    commit_messages := fun _ => []
    pending_block := none }

/-- The PREPARE vote list for the message's hash after the `but` handler's
`.append(sender_id)`. -/
def butPrepareAfter (s : ButState) (m : ButMsg) : List Nat :=
  s.prepare_messages m.block_hash ++ [m.sender_id]

/-- The COMMIT vote list for the message's hash after the `but` handler's
`.append(sender_id)`. -/
def butCommitAfter (s : ButState) (m : ButMsg) : List Nat :=
  s.commit_messages m.block_hash ++ [m.sender_id]

/-- `but/node.py` `Node.handle_prepare` (lines 37–50): *append* the sender
to the list for the hash (duplicates accumulate), then report `COMMITTED`
once the list's length reaches `2 * FAULTY_NODES`, else
`WAITING_FOR_PREPARES`. -/
def butHandlePrepare (f : Nat) (s : ButState) (m : ButMsg) :
    ButState × ButStatus :=
  ({ s with prepare_messages :=
       updateListMap s.prepare_messages m.block_hash (butPrepareAfter s m) },
   if 2 * f ≤ (butPrepareAfter s m).length then ButStatus.COMMITTED
   else ButStatus.WAITING_FOR_PREPARES)

/-- `but/node.py` `Node.handle_commit` (lines 53–71): *append* the sender
to the list for the hash; once the list's length reaches
`2 * FAULTY_NODES + 1`, clear the pending slot, pop both vote lists, and
report `BLOCK_ADDED` (nothing is ever appended to the chain — the
`add_block` call is commented out); otherwise `WAITING_FOR_COMMITS`. -/
def butHandleCommit (f : Nat) (s : ButState) (m : ButMsg) :
    ButState × ButStatus :=
  if 2 * f + 1 ≤ (butCommitAfter s m).length then
    ({ pending_block := none
       prepare_messages := updateListMap s.prepare_messages m.block_hash []
       commit_messages :=
         updateListMap (updateListMap s.commit_messages m.block_hash
           (butCommitAfter s m)) m.block_hash [] },
     ButStatus.BLOCK_ADDED)
  else
    ({ s with commit_messages :=
         updateListMap s.commit_messages m.block_hash (butCommitAfter s m) },
     ButStatus.WAITING_FOR_COMMITS)

/-!  Generic lemmas about the handlers, shared by the claim theorems. -/

/-- `handle_pre_prepare` never touches the chain, the vote maps, or
anything but the pending slot. -/
theorem handlePrePrepare_state (s : NodeState) (m : Msg) :
    (handlePrePrepare s m).1.chain = s.chain ∧
    (handlePrePrepare s m).1.pending_block = some m.block_data ∧
    (handlePrePrepare s m).1.commit_messages = s.commit_messages ∧
    (handlePrePrepare s m).1.prepare_messages = s.prepare_messages ∧
    (handlePrePrepare s m).2 = Status.PREPARE_BROADCASTED :=
  ⟨rfl, rfl, rfl, rfl, rfl⟩

/-- `handle_prepare` never touches the chain or the pending slot. -/
theorem handlePrepare_state (f : Nat) (s : NodeState) (m : Msg) :
    (handlePrepare f s m).1.chain = s.chain ∧
    (handlePrepare f s m).1.pending_block = s.pending_block ∧
    (handlePrepare f s m).1.commit_messages = s.commit_messages :=
  ⟨rfl, rfl, rfl⟩

/-- `handle_commit` below threshold: record the vote and wait. -/
theorem handleCommit_below (f : Nat) (s : NodeState) (m : Msg)
    (h : ¬ 2 * f + 1 ≤ (commitVotersAfter s m).card) :
    handleCommit f s m =
      ({ s with commit_messages :=
           updateMap s.commit_messages m.block_data.hash (commitVotersAfter s m) },
       Status.WAITING_FOR_MORE_COMMITS) := by
  unfold handleCommit
  rw [if_neg h]

/-- `handle_commit` at threshold with no pending block: record and wait. -/
theorem handleCommit_nopending (f : Nat) (s : NodeState) (m : Msg)
    (hth : 2 * f + 1 ≤ (commitVotersAfter s m).card)
    (hpb : s.pending_block = none) :
    handleCommit f s m =
      ({ s with commit_messages :=
           updateMap s.commit_messages m.block_data.hash (commitVotersAfter s m) },
       Status.WAITING_FOR_MORE_COMMITS) := by
  unfold handleCommit
  rw [if_pos hth, hpb]

/-- `handle_commit` at threshold with a mismatched pending block: record
and wait. -/
theorem handleCommit_mismatch (f : Nat) (s : NodeState) (m : Msg)
    (pb : BlockDict) (hth : 2 * f + 1 ≤ (commitVotersAfter s m).card)
    (hpb : s.pending_block = some pb) (hne : ¬ pb.hash = m.block_data.hash) :
    handleCommit f s m =
      ({ s with commit_messages :=
           updateMap s.commit_messages m.block_data.hash (commitVotersAfter s m) },
       Status.WAITING_FOR_MORE_COMMITS) := by
  unfold handleCommit
  rw [if_pos hth, hpb]
  exact if_neg hne

/-- `handle_commit` at threshold with a matching pending block: append the
pending dictionary, clear the slot, pop the vote sets, report
`BLOCK_ADDED`. -/
theorem handleCommit_appends (f : Nat) (s : NodeState) (m : Msg)
    (pb : BlockDict) (hth : 2 * f + 1 ≤ (commitVotersAfter s m).card)
    (hpb : s.pending_block = some pb) (hh : pb.hash = m.block_data.hash) :
    handleCommit f s m =
      ({ s with chain := s.chain ++ [ChainEntry.dict pb]
                pending_block := none
                prepare_messages := updateMap s.prepare_messages m.block_data.hash ∅
                commit_messages :=
                  updateMap (updateMap s.commit_messages m.block_data.hash
                    (commitVotersAfter s m)) m.block_data.hash ∅ },
       Status.BLOCK_ADDED) := by
  unfold handleCommit
  rw [if_pos hth, hpb]
  exact if_pos hh

/-- The handler reports `BLOCK_ADDED` precisely when the updated COMMIT
set reaches `2f+1` and the pending block is present with a matching
hash. -/
theorem handleCommit_block_added_iff (f : Nat) (s : NodeState) (m : Msg) :
    (handleCommit f s m).2 = Status.BLOCK_ADDED ↔
      2 * f + 1 ≤ (commitVotersAfter s m).card ∧
        ∃ pb, s.pending_block = some pb ∧ pb.hash = m.block_data.hash := by
  by_cases hth : 2 * f + 1 ≤ (commitVotersAfter s m).card
  · cases hpb : s.pending_block with
    | none =>
      rw [handleCommit_nopending f s m hth hpb]
      simp [hpb]
    | some pb =>
      by_cases hh : pb.hash = m.block_data.hash
      · rw [handleCommit_appends f s m pb hth hpb hh]
        exact ⟨fun _ => ⟨hth, pb, hpb ▸ rfl, hh⟩, fun _ => rfl⟩
      · rw [handleCommit_mismatch f s m pb hth hpb hh]
        simp [hpb, hh]
  · rw [handleCommit_below f s m hth]
    simp [hth]

/-- Appending an entry that links onto the tail preserves the chain
invariant. -/
theorem chainOk_append : ∀ (c : List ChainEntry) (tl e : ChainEntry),
    chainOk c = true → c.getLast? = some tl → linkOk tl e = true →
    chainOk (c ++ [e]) = true := by
  intro c
  induction c with
  | nil => intro tl e _ hlast _; simp at hlast
  | cons a rest ih =>
    intro tl e hok hlast hlink
    cases rest with
    | nil =>
      obtain rfl : a = tl := by simpa using hlast
      simpa [chainOk] using hlink
    | cons b rest' =>
      rw [chainOk, Bool.and_eq_true] at hok
      have hlast' : (b :: rest').getLast? = some tl := by
        simpa [List.getLast?_cons_cons] using hlast
      have htail := ih tl e hok.2 hlast' hlink
      show chainOk (a :: b :: (rest' ++ [e])) = true
      rw [chainOk, Bool.and_eq_true]
      exact ⟨hok.1, htail⟩

/-!  Concrete instances used by the scenario and counterexample theorems.
`cexHash` is a concrete stand-in for the SHA-256 primitive (the behaviour
exercised below never depends on the digest's value). -/

def cexHash : String → String := fun _ => "G"

/-- A COMMIT/PRE-PREPARE wire message for the block dictionary with hash
`"h"` that links correctly onto the genesis block under `cexHash`. -/
def c1Msg (sender : Nat) : Msg :=
  { view := 0
    block_data :=
      { index := 1, transactions := [], timestamp := 0
        previous_hash := "G", nonce := 0, hash := "h" }
    sender_id := sender }

/-- Replica state after `initNode` and one PRE-PREPARE carrying the block
body for hash `"h"`. -/
def c1S1 : NodeState :=
  (handlePrePrepare (initNode cexHash 0 0 false) (c1Msg 0)).1

/-- State after the COMMIT votes of senders 1 and 2 (f = 1: still below
the `2f+1 = 3` threshold). -/
def c1S3 : NodeState :=
  (handleCommit 1 (handleCommit 1 c1S1 (c1Msg 1)).1 (c1Msg 2)).1

/-- C1 (amended): `handle_commit` reports `BLOCK_ADDED` — and appends —
exactly when the updated COMMIT set for the message's hash has at least
`2f+1` distinct senders AND the pending block is present with a matching
hash; the claim's f = 1 scenario (COMMIT from senders 1, 2, 3 with a
matching pending block: the append happens exactly at the 3rd distinct
sender, and the pending slot is cleared afterwards) holds as stated. -/
theorem c1_commit_quorum : (∀ (f : Nat) (s : NodeState) (m : Msg),
      (handleCommit f s m).2 = Status.BLOCK_ADDED ↔
        2 * f + 1 ≤ (commitVotersAfter s m).card ∧
          ∃ pb, s.pending_block = some pb ∧ pb.hash = m.block_data.hash)
    ∧ (handleCommit 1 c1S1 (c1Msg 1)).2 = Status.WAITING_FOR_MORE_COMMITS
    ∧ (handleCommit 1 (handleCommit 1 c1S1 (c1Msg 1)).1 (c1Msg 2)).2 =
        Status.WAITING_FOR_MORE_COMMITS
    ∧ (handleCommit 1 c1S3 (c1Msg 3)).2 = Status.BLOCK_ADDED
    ∧ (handleCommit 1 c1S3 (c1Msg 3)).1.pending_block = none
    ∧ (handleCommit 1 c1S3 (c1Msg 3)).1.chain =
        blockchainInit cexHash 0 ++ [ChainEntry.dict (c1Msg 0).block_data] :=
  ⟨handleCommit_block_added_iff, by decide, by decide, by decide, by decide,
   by decide⟩

/-- A COMMIT message for hash `"h"` whose body this replica never
receives. -/
def c1xMsg (sender : Nat) : Msg :=
  { view := 0
    block_data :=
      { index := 1, transactions := [], timestamp := 0
        previous_hash := "G", nonce := 0, hash := "h" }
    sender_id := sender }

/-- Reachable state after COMMIT votes from senders 1, 2, 3 with no
PRE-PREPARE ever processed (pending slot empty). -/
def c1xS3 : NodeState :=
  (handleCommit 1 (handleCommit 1 (handleCommit 1 (initNode cexHash 0 0 false)
    (c1xMsg 1)).1 (c1xMsg 2)).1 (c1xMsg 3)).1

/-- C1 counterexample to the claim as stated: with f = 1, a reachable
replica state records 3 ≥ 2f+1 distinct COMMIT senders for hash `"h"`,
yet every one of the three `handle_commit` calls reported
`WAITING_FOR_MORE_COMMITS` and nothing was ever appended (the chain is
still the genesis-only chain) — the "only if" of the claim's
biconditional fails because the pending block is absent. -/
theorem c1_counterexample :
    Reachable cexHash 1 c1xS3
    ∧ (c1xS3.commit_messages "h").card = 3
    ∧ 2 * 1 + 1 ≤ (c1xS3.commit_messages "h").card
    ∧ (handleCommit 1 (handleCommit 1 (handleCommit 1
        (initNode cexHash 0 0 false) (c1xMsg 1)).1 (c1xMsg 2)).1
        (c1xMsg 3)).2 = Status.WAITING_FOR_MORE_COMMITS
    ∧ c1xS3.chain = blockchainInit cexHash 0
    ∧ c1xS3.chain.length = 1 :=
  ⟨Reachable.commit (c1xMsg 3) (Reachable.commit (c1xMsg 2)
     (Reachable.commit (c1xMsg 1) (Reachable.init 0 0 false))),
   by decide, by decide, by decide, by decide, by decide⟩

/-- C2 (amended): `Blockchain.add_block` performs no linkage validation
at all: for every chain and every block it succeeds, appending the block
at the end of the chain and returning it.  (No `ChainLinkageError`
exists anywhere in the source.) -/
theorem c2_append_unvalidated (chain : List ChainEntry) (b : ChainEntry) :
    addBlock chain b = (chain ++ [b], b) := rfl

/-- A block dictionary violating both linkage conditions with respect to
the genesis tail: wrong `previous_hash` and wrong `index`. -/
def c2Bad : ChainEntry :=
  ChainEntry.dict
    { index := 42, transactions := [], timestamp := 0
      previous_hash := "zzz", nonce := 0, hash := "x" }

/-- C2 counterexample: appending a block whose `previous_hash` does not
equal the tail's hash and whose `index` is not tail's index + 1 does NOT
fail and does NOT leave the chain unchanged — `add_block` appends it
anyway. -/
theorem c2_counterexample :
    linkOk (ChainEntry.block (blockNew cexHash 0 [] 0 "0" 0)) c2Bad = false
    ∧ (addBlock (blockchainInit cexHash 0) c2Bad).1 =
        blockchainInit cexHash 0 ++ [c2Bad]
    ∧ (addBlock (blockchainInit cexHash 0) c2Bad).1 ≠ blockchainInit cexHash 0 := by
  refine ⟨by decide, rfl, by decide⟩

/-- Every linkage-respecting trace keeps the chain invariant and the
chain non-empty (auxiliary induction for C3). -/
theorem reachableLinked_chainOk (hd : String → String) (f : Nat)
    (s : NodeState) (h : ReachableLinked hd f s) :
    chainOk s.chain = true ∧ s.chain ≠ [] := by
  induction h with
  | init t0 nid p =>
    exact ⟨rfl, by simp [initNode, blockchainInit]⟩
  | prePrepare m hs ih => exact ih
  | prepare m hs ih => exact ih
  | commit m hs hlk ih =>
    rename_i s'
    by_cases hth : 2 * f + 1 ≤ (commitVotersAfter s' m).card
    · cases hpb : s'.pending_block with
      | none => rw [handleCommit_nopending _ _ _ hth hpb]; exact ih
      | some pb =>
        by_cases hh : pb.hash = m.block_data.hash
        · rw [handleCommit_appends _ _ _ pb hth hpb hh]
          obtain ⟨tail, htail, hprev, hidx⟩ := hlk pb hpb hh hth
          refine ⟨?_, by simp⟩
          apply chainOk_append s'.chain tail (ChainEntry.dict pb) ih.1 htail
          simp [linkOk, ChainEntry.prevHashOf, ChainEntry.indexOf,
            ChainEntry.hashOf, hprev, hidx]
        · rw [handleCommit_mismatch _ _ _ pb hth hpb hh]; exact ih
    · rw [handleCommit_below _ _ _ hth]; exact ih

/-- C3 (amended): the hash-chain invariant holds for every state
reachable by the public operations PROVIDED every committing step appends
a block dictionary satisfying the linkage conditions against the current
tail (`ReachableLinked`); the source performs no such validation, so
unrestricted reachable states can violate the invariant (see the
counterexample). -/
theorem c3_linked_invariant (hd : String → String) (f : Nat)
    (s : NodeState) (h : ReachableLinked hd f s) : chainOk s.chain = true :=
  (reachableLinked_chainOk hd f s h).1

/-- Witness for C3's amended theorem: the freshly constructed replica. -/
theorem c3_linked_invariant_witness :
    chainOk (initNode cexHash 0 0 false).chain = true :=
  c3_linked_invariant cexHash 1 (initNode cexHash 0 0 false)
    (ReachableLinked.init 0 0 false)

/-- A block dictionary whose `previous_hash` (`"bad"`) and `index` (5) fit
nothing in the genesis-only chain. -/
def c3Bad : BlockDict :=
  { index := 5, transactions := [], timestamp := 0
    previous_hash := "bad", nonce := 0, hash := "h" }

/-- Wire messages carrying `c3Bad`. -/
def c3Msg (sender : Nat) : Msg :=
  { view := 0, block_data := c3Bad, sender_id := sender }

/-- The state reached (f = 1) by PRE-PREPARE of `c3Bad` followed by COMMIT
votes from senders 1, 2, 3. -/
def c3State : NodeState :=
  (handleCommit 1 (handleCommit 1 (handleCommit 1
    (handlePrePrepare (initNode cexHash 0 0 false) (c3Msg 0)).1
    (c3Msg 1)).1 (c3Msg 2)).1 (c3Msg 3)).1

/-- C3 counterexample: a state reachable by the public operations whose
two-entry chain violates the hash-chain invariant — the replica committed
an unvalidated block dictionary with a garbage `previous_hash` and a
non-successor `index`. -/
theorem c3_counterexample :
    Reachable cexHash 1 c3State
    ∧ chainOk c3State.chain = false
    ∧ c3State.chain.length = 2 :=
  ⟨Reachable.commit (c3Msg 3) (Reachable.commit (c3Msg 2)
     (Reachable.commit (c3Msg 1) (Reachable.prePrepare (c3Msg 0)
       (Reachable.init 0 0 false)))),
   by decide, by decide⟩

/-- `n` successive `handle_prepare` invocations with the same message. -/
def applyPrepares (f : Nat) (m : Msg) : Nat → NodeState → NodeState
  | 0, s => s
  | n + 1, s => applyPrepares f m n (handlePrepare f s m).1

/-- After at least one `handle_prepare` with message `m`, any number of
replays leaves the PREPARE set for that hash at exactly
`insert sender (initial set)` (auxiliary induction for C4). -/
theorem applyPrepares_dedup (f : Nat) (m : Msg) :
    ∀ (n : Nat) (s : NodeState),
      (applyPrepares f m (n + 1) s).prepare_messages m.block_data.hash =
        insert m.sender_id (s.prepare_messages m.block_data.hash) := by
  intro n
  induction n with
  | zero =>
    intro s
    show (handlePrepare f s m).1.prepare_messages m.block_data.hash = _
    simp [handlePrepare, updateMap, prepareVotersAfter]
  | succ k ih =>
    intro s
    show (applyPrepares f m (k + 1) (handlePrepare f s m).1).prepare_messages
        m.block_data.hash = _
    rw [ih (handlePrepare f s m).1]
    simp [handlePrepare, updateMap, prepareVotersAfter, Finset.insert_idem]

/-- C4 (amended): in the set-based `bft/node.py` module, voting is
idempotent per (phase, blockHash, senderID): (i) a PREPARE from a sender
already recorded for that hash leaves the whole PREPARE accumulator
unchanged; (ii) any number of replays of the same PREPARE leaves the set
at `insert sender initial`, so a duplicate never contributes a second
unit toward the `2f` threshold; (iii) a duplicate COMMIT never increases
the COMMIT count for its hash.  (The list-based `but/node.py` module does
NOT have this property — see the counterexample.) -/
theorem c4_dedup_set_based :
    (∀ (f : Nat) (s : NodeState) (m : Msg),
      m.sender_id ∈ s.prepare_messages m.block_data.hash →
        (handlePrepare f s m).1.prepare_messages = s.prepare_messages)
    ∧ (∀ (f : Nat) (m : Msg) (n : Nat) (s : NodeState),
        (applyPrepares f m (n + 1) s).prepare_messages m.block_data.hash =
          insert m.sender_id (s.prepare_messages m.block_data.hash))
    ∧ (∀ (f : Nat) (s : NodeState) (m : Msg),
        m.sender_id ∈ s.commit_messages m.block_data.hash →
          ((handleCommit f s m).1.commit_messages m.block_data.hash).card ≤
            (s.commit_messages m.block_data.hash).card) := by
  refine ⟨?_, fun f m n s => applyPrepares_dedup f m n s, ?_⟩
  · intro f s m hmem
    funext k
    simp only [handlePrepare, updateMap, prepareVotersAfter]
    by_cases hk : k = m.block_data.hash
    · subst hk
      simp [Finset.insert_eq_self.mpr hmem]
    · simp [hk]
  · intro f s m hmem
    have hsame : commitVotersAfter s m = s.commit_messages m.block_data.hash :=
      Finset.insert_eq_self.mpr hmem
    by_cases hth : 2 * f + 1 ≤ (commitVotersAfter s m).card
    · cases hpb : s.pending_block with
      | none =>
        rw [handleCommit_nopending _ _ _ hth hpb]
        simp [updateMap, hsame]
      | some pb =>
        by_cases hh : pb.hash = m.block_data.hash
        · rw [handleCommit_appends _ _ _ pb hth hpb hh]
          simp [updateMap]
        · rw [handleCommit_mismatch _ _ _ pb hth hpb hh]
          simp [updateMap, hsame]
    · rw [handleCommit_below _ _ _ hth]
      simp [updateMap, hsame]

/-- A state in which sender 7 is already recorded as a PREPARE and a
COMMIT voter for hash `"h"` (reached by one PREPARE and one COMMIT from
sender 7). -/
def c4S : NodeState :=
  (handleCommit 1 (handlePrepare 1 (initNode cexHash 0 0 false)
    (c1Msg 7)).1 (c1Msg 7)).1

/-- Witness for C4's amended theorem at a concrete input: a duplicate
PREPARE from sender 7 leaves the accumulator of `c4S` unchanged. -/
theorem c4_dedup_set_based_witness :
    (handlePrepare 1 c4S (c1Msg 7)).1.prepare_messages = c4S.prepare_messages
    ∧ ((handleCommit 1 c4S (c1Msg 7)).1.commit_messages "h").card ≤
        (c4S.commit_messages "h").card :=
  ⟨c4_dedup_set_based.1 1 c4S (c1Msg 7) (by decide),
   c4_dedup_set_based.2.2 1 c4S (c1Msg 7) (by decide)⟩

/-- The duplicate PREPARE message used against `but/node.py`. -/
def c4Msg : ButMsg := { view := 0, block_hash := "h", sender_id := 7 }

/-- `but/node.py` state after the same sender's PREPARE was handled
twice. -/
def c4S2 : ButState :=
  (butHandlePrepare 1 (butHandlePrepare 1 butInit c4Msg).1 c4Msg).1

/-- C4 counterexample: in the list-based `but/node.py` module a duplicate
PREPARE from the very same sender is recorded twice (vote count 2 > 1 for
sender 7) and the two duplicates alone reach the `2f = 2` threshold
(status `COMMITTED`), so the claim is false "in both node modules". -/
theorem c4_counterexample :
    c4S2.prepare_messages "h" = [7, 7]
    ∧ (c4S2.prepare_messages "h").count 7 = 2
    ∧ (butHandlePrepare 1 (butHandlePrepare 1 butInit c4Msg).1 c4Msg).2 =
        ButStatus.COMMITTED := by
  refine ⟨by decide, by decide, by decide⟩

/-- COMMIT/PRE-PREPARE wire messages for the C5 scenario (hash `"h"`,
body linking onto the genesis block under `cexHash`). -/
def c5Msg (sender : Nat) : Msg :=
  { view := 0
    block_data :=
      { index := 1, transactions := [], timestamp := 0
        previous_hash := "G", nonce := 0, hash := "h" }
    sender_id := sender }

/-- State after COMMIT votes from senders 1, 2, 3 (f = 1: quorum reached)
with no PRE-PREPARE ever processed. -/
def c5S3 : NodeState :=
  (handleCommit 1 (handleCommit 1 (handleCommit 1 (initNode cexHash 0 0 false)
    (c5Msg 1)).1 (c5Msg 2)).1 (c5Msg 3)).1

/-- State after the PRE-PREPARE carrying the block body finally arrives. -/
def c5S4 : NodeState :=
  (handlePrePrepare c5S3 (c5Msg 0)).1

/-- C5 counterexample: COMMIT quorum for hash `"h"` is reached (3
distinct senders ≥ 2f+1) before any PRE-PREPARE; when the PRE-PREPARE
carrying the block body is later processed, the code does NOT append —
the chain is still the genesis-only chain — contradicting "the block is
appended immediately once the PRE_PREPARE ... is later processed". -/
theorem c5_counterexample :
    (c5S3.commit_messages "h").card = 3
    ∧ 2 * 1 + 1 ≤ (c5S3.commit_messages "h").card
    ∧ (handlePrePrepare c5S3 (c5Msg 0)).2 = Status.PREPARE_BROADCASTED
    ∧ c5S4.pending_block = some (c5Msg 0).block_data
    ∧ c5S4.chain = blockchainInit cexHash 0
    ∧ c5S4.chain.length = 1 := by
  refine ⟨by decide, by decide, by decide, by decide, by decide, by decide⟩

/-- C5 (amended): when the COMMIT threshold is reached while the pending
block is absent or mismatched, the vote set is retained (not reset), no
append happens and the handler reports `WAITING_FOR_MORE_COMMITS`;
`handle_pre_prepare` stores the block body without touching chain or
vote sets; the append then occurs at the NEXT `handle_commit` call for
that hash after the body has arrived (a replayed or duplicate COMMIT
suffices), not at the PRE-PREPARE itself. -/
theorem c5_deferred_commit :
    (∀ (f : Nat) (s : NodeState) (m : Msg),
      2 * f + 1 ≤ (commitVotersAfter s m).card →
      (s.pending_block = none ∨
        ∃ pb, s.pending_block = some pb ∧ pb.hash ≠ m.block_data.hash) →
        (handleCommit f s m).1.commit_messages m.block_data.hash =
          commitVotersAfter s m
        ∧ (handleCommit f s m).2 = Status.WAITING_FOR_MORE_COMMITS
        ∧ (handleCommit f s m).1.chain = s.chain)
    ∧ (∀ (s : NodeState) (m : Msg),
        (handlePrePrepare s m).1.chain = s.chain
        ∧ (handlePrePrepare s m).1.pending_block = some m.block_data
        ∧ (handlePrePrepare s m).1.commit_messages = s.commit_messages)
    ∧ (∀ (f : Nat) (s : NodeState) (m : Msg) (pb : BlockDict),
        s.pending_block = some pb → pb.hash = m.block_data.hash →
        2 * f + 1 ≤ (commitVotersAfter s m).card →
          (handleCommit f s m).2 = Status.BLOCK_ADDED
          ∧ (handleCommit f s m).1.chain = s.chain ++ [ChainEntry.dict pb]) := by
  refine ⟨?_, fun s m => ⟨rfl, rfl, rfl⟩, ?_⟩
  · intro f s m hth hcase
    rcases hcase with hnone | ⟨pb, hpb, hne⟩
    · rw [handleCommit_nopending _ _ _ hth hnone]
      exact ⟨by simp [updateMap], rfl, rfl⟩
    · rw [handleCommit_mismatch _ _ _ pb hth hpb hne]
      exact ⟨by simp [updateMap], rfl, rfl⟩
  · intro f s m pb hpb hh hth
    rw [handleCommit_appends _ _ _ pb hth hpb hh]
    exact ⟨rfl, rfl⟩

/-- Witness for C5's amended theorem: at `c5S4` (quorum already recorded,
body just arrived) one replayed COMMIT from the already-recorded sender 1
appends the block. -/
theorem c5_deferred_commit_witness :
    (handleCommit 1 c5S4 (c5Msg 1)).2 = Status.BLOCK_ADDED
    ∧ (handleCommit 1 c5S4 (c5Msg 1)).1.chain =
        c5S4.chain ++ [ChainEntry.dict (c5Msg 0).block_data] :=
  c5_deferred_commit.2.2 1 c5S4 (c5Msg 1) (c5Msg 0).block_data
    (by decide) (by decide) (by decide)

/-- PREPARE wire messages for the C6 run (hash `"h"`). -/
def c6Msg (sender : Nat) : Msg :=
  { view := 0
    block_data :=
      { index := 1, transactions := [], timestamp := 0
        previous_hash := "G", nonce := 0, hash := "h" }
    sender_id := sender }

/-- State after PREPARE votes from senders 1 and 2 (f = 1: the `2f = 2`
threshold is reached at the second vote). -/
def c6S2 : NodeState :=
  (handlePrepare 1 (handlePrepare 1 (initNode cexHash 0 0 false)
    (c6Msg 1)).1 (c6Msg 2)).1

/-- C6 counterexample: with f = 1 the threshold is first reached at the
2nd distinct PREPARE sender (status `COMMIT_BROADCASTED`), but a further
PREPARE arriving after the threshold was already reached AGAIN returns
`COMMIT_BROADCASTED` instead of the await-more-prepares status the claim
requires. -/
theorem c6_counterexample :
    (handlePrepare 1 (handlePrepare 1 (initNode cexHash 0 0 false)
        (c6Msg 1)).1 (c6Msg 2)).2 = Status.COMMIT_BROADCASTED
    ∧ 2 * 1 ≤ (c6S2.prepare_messages "h").card
    ∧ (handlePrepare 1 c6S2 (c6Msg 3)).2 = Status.COMMIT_BROADCASTED
    ∧ (handlePrepare 1 c6S2 (c6Msg 3)).2 ≠ Status.WAITING_FOR_MORE_PREPARES := by
  refine ⟨by decide, by decide, by decide, by decide⟩

/-- C6 (amended): `handle_prepare` returns the commit-broadcast
instruction on EVERY prepare for which the updated PREPARE set has
reached `2f` — first time or not — and the await-more status exactly on
the prepares below the threshold. -/
theorem c6_threshold_every_time (f : Nat) (s : NodeState) (m : Msg) :
    (handlePrepare f s m).2 = Status.COMMIT_BROADCASTED ↔
      2 * f ≤ (prepareVotersAfter s m).card := by
  by_cases h : 2 * f ≤ (prepareVotersAfter s m).card
  · simp [handlePrepare, h]
  · simp [handlePrepare, h]

/-- C7: what Ledger construction is specified to produce — and what the
code actually does.  The intended structure holds of the genesis value
the constructor builds (one block, index 0, empty transactions,
`previous_hash = "0"`, hash computed immediately from the block fields),
but the actual construction never completes: `compute_hash` references
the unresolved name `json`, so genesis construction — and with it Ledger
construction — raises `NameError` for every hash primitive and every
construction time. -/
theorem c7_genesis (hd : String → String) (t0 : Nat) :
    blockchainInitChecked hd t0 = Except.error (PyErr.nameError "json")
    ∧ blockchainInit hd t0 = [ChainEntry.block (blockNew hd 0 [] t0 "0" 0)]
    ∧ (blockchainInit hd t0).length = 1
    ∧ (blockNew hd 0 [] t0 "0" 0).index = 0
    ∧ (blockNew hd 0 [] t0 "0" 0).transactions = []
    ∧ (blockNew hd 0 [] t0 "0" 0).previous_hash = "0"
    ∧ (blockNew hd 0 [] t0 "0" 0).hash = computeHash hd 0 [] t0 "0" 0 :=
  ⟨rfl, rfl, rfl, rfl, rfl, rfl, rfl⟩

/-- C8: the stored hash is a pure deterministic function of the tuple
(index, transactions, timestamp, previousHash, nonce): (i) a constructed
block's hash is exactly the hash primitive applied to the canonical
serialization of those five fields; (ii) two blocks constructed from
identical field values have identical hashes; (iii) in every reachable
replica state, every `Block` object on the chain still carries the hash
computed from its own five fields at construction (it is never mutated by
any operation). -/
theorem c8_hash_pure :
    (∀ (hd : String → String) (i : Nat) (tx : List Vote) (ts : Nat)
        (ph : String) (n : Nat),
      (blockNew hd i tx ts ph n).hash = hd (serializeBlockFields i tx ts ph n))
    ∧ (∀ (hd : String → String) (i : Nat) (tx : List Vote) (ts : Nat)
        (ph : String) (n i' : Nat) (tx' : List Vote) (ts' : Nat)
        (ph' : String) (n' : Nat),
        i = i' → tx = tx' → ts = ts' → ph = ph' → n = n' →
          (blockNew hd i tx ts ph n).hash = (blockNew hd i' tx' ts' ph' n').hash)
    ∧ (∀ (hd : String → String) (f : Nat) (s : NodeState),
        Reachable hd f s → ∀ b : BlockRec, ChainEntry.block b ∈ s.chain →
          b.hash =
            computeHash hd b.index b.transactions b.timestamp
              b.previous_hash b.nonce) := by
  refine ⟨fun hd i tx ts ph n => rfl, ?_, ?_⟩
  · intro hd i tx ts ph n i' tx' ts' ph' n' h1 h2 h3 h4 h5
    subst h1; subst h2; subst h3; subst h4; subst h5; rfl
  · intro hd f s hreach
    induction hreach with
    | init t0 nid p =>
      intro b hb
      have hb' : b = blockNew hd 0 [] t0 "0" 0 := by
        simpa [initNode, blockchainInit] using hb
      subst hb'; rfl
    | prePrepare m hs ih => exact ih
    | prepare m hs ih => exact ih
    | commit m hs ih =>
      rename_i s'
      by_cases hth : 2 * f + 1 ≤ (commitVotersAfter s' m).card
      · cases hpb : s'.pending_block with
        | none => rw [handleCommit_nopending _ _ _ hth hpb]; exact ih
        | some pb =>
          by_cases hh : pb.hash = m.block_data.hash
          · rw [handleCommit_appends _ _ _ pb hth hpb hh]
            intro b hb
            rcases List.mem_append.mp hb with h1 | h2
            · exact ih b h1
            · simp at h2
          · rw [handleCommit_mismatch _ _ _ pb hth hpb hh]; exact ih
      · rw [handleCommit_below _ _ _ hth]; exact ih

/-- Witness for C8 part (iii): in the freshly constructed replica the
genesis `Block` object carries the hash computed from its own fields. -/
theorem c8_hash_pure_witness :
    (blockNew cexHash 0 [] 0 "0" 0).hash = computeHash cexHash 0 [] 0 "0" 0 :=
  c8_hash_pure.2.2 cexHash 0 (initNode cexHash 0 0 false)
    (Reachable.init 0 0 false) (blockNew cexHash 0 [] 0 "0" 0) (by decide)

/-- C9: `Block.compute_hash` references the name `json`, which
`blockchain/block.py` never imports, so every `Block` construction —
and hence every `Blockchain` construction (genesis block) and every
`Node` construction (owned `Blockchain`) — fails with NameError, for all
arguments; no consensus operation is ever reachable on a real `Node`. -/
theorem c9_construction_fails (hd : String → String) (i : Nat)
    (tx : List Vote) (ts : Nat) (ph : String) (n t0 nid : Nat) (p : Bool) :
    blockNewChecked hd i tx ts ph n = Except.error (PyErr.nameError "json")
    ∧ blockchainInitChecked hd t0 = Except.error (PyErr.nameError "json")
    ∧ nodeInitChecked hd t0 nid p = Except.error (PyErr.nameError "json") :=
  ⟨rfl, rfl, rfl⟩

/-- C10: every successful commit appends the pending wire dictionary —
not a `Block` object — so the chain's last element is a plain mapping,
and any subsequent `create_block` fails with `AttributeError` when it
evaluates `last_block.index` on that mapping. -/
theorem c10_commit_breaks_chain (hd : String → String) (f : Nat)
    (s s' : NodeState) (m : Msg)
    (h : handleCommit f s m = (s', Status.BLOCK_ADDED)) :
    (∃ d, s.pending_block = some d
       ∧ s'.chain = s.chain ++ [ChainEntry.dict d]
       ∧ s'.chain.getLast? = some (ChainEntry.dict d))
    ∧ ∀ (votes : List Vote) (t : Nat),
        createBlock hd s' votes t =
          Except.error (PyErr.attributeError "index") := by
  have hstat : (handleCommit f s m).2 = Status.BLOCK_ADDED := by rw [h]
  obtain ⟨hth, pb, hpb, hh⟩ := (handleCommit_block_added_iff f s m).mp hstat
  rw [handleCommit_appends f s m pb hth hpb hh] at h
  have hs' : s'.chain = s.chain ++ [ChainEntry.dict pb] := by
    have := congrArg (fun p => (Prod.fst p).chain) h
    simpa using this.symm
  have hlast : s'.chain.getLast? = some (ChainEntry.dict pb) := by
    rw [hs', List.getLast?_append_cons]
    rfl
  refine ⟨⟨pb, hpb, hs', hlast⟩, ?_⟩
  intro votes t
  unfold createBlock
  rw [hlast]

/-- A PRE-PREPARE/COMMIT wire message used for the C10 witness run. -/
def c10Msg : Msg :=
  { view := 0
    block_data :=
      { index := 1, transactions := [], timestamp := 0
        previous_hash := "G", nonce := 0, hash := "h" }
    sender_id := 1 }

/-- Replica state holding `c10Msg`'s body as pending. -/
def c10S : NodeState :=
  (handlePrePrepare (initNode cexHash 0 0 false) c10Msg).1

/-- Replica state after the commit that appends (f = 0: one COMMIT is
already a `2f+1 = 1` quorum). -/
def c10S' : NodeState := (handleCommit 0 c10S c10Msg).1

/-- Witness for C10 at a concrete input: after the successful commit,
`create_block` fails with the attribute error. -/
theorem c10_commit_breaks_chain_witness :
    createBlock cexHash c10S' [] 0 =
      Except.error (PyErr.attributeError "index") :=
  (c10_commit_breaks_chain cexHash 0 c10S c10S' c10Msg rfl).2 [] 0
